import Mathlib

/-!
Sample user controller (`pkg/api/rest/controller/sample.go`)

A shallow embedding of the six echo handlers of the sample controller and
the properties of its request/response contract.

The handlers only use three things from outside the file: the `MyUser`
struct of the `model` package, `strconv.Atoi` on the `id` path parameter and
`echo.Context` (`Param`, `Bind`, `JSON`).  Each is given an executable model
below; the handlers themselves follow the Go text statement by statement.
-/

namespace Controller

/-! Section: Data model -/

/-- Modelled from the spec: the struct `model.MyUser` (package
`pkg/api/rest/model`, not part of the controller file).  The spec gives it
three attributes, `id` (integer), `name` (text) and `email` (text); the
controller uses them as the fields `ID`, `Name` and `Email`. -/
structure MyUser where
  ID : Int
  Name : String
  Email : String
  deriving DecidableEq, Repr

/-- The value `new(model.MyUser)` points to: every field at its zero value. -/
def MyUser.zero : MyUser := { ID := 0, Name := "", Email := "" }

/-- What a handler hands to `c.JSON`: a plain string, one user or a slice of
users. -/
inductive Payload where
  | text (s : String)
  | user (u : MyUser)
  | users (us : List MyUser)
  deriving DecidableEq, Repr

/-- The effect of `c.JSON(code, value)`: a status code and a JSON value. -/
structure Response where
  status : Nat
  body : Payload
  deriving DecidableEq, Repr

/-- Constant `http.StatusOK`. -/
def StatusOK : Nat := 200
/-- Constant `http.StatusCreated`. -/
def StatusCreated : Nat := 201
/-- Constant `http.StatusBadRequest`. -/
def StatusBadRequest : Nat := 400
/-- Constant `http.StatusNotFound`. -/
def StatusNotFound : Nat := 404

/-! Section: Request context -/

/-- The request body as `c.Bind` sees it when the target is a `*MyUser`.
`malformed` stands for every request whose binding returns an error (broken
JSON, a field of the wrong JSON type, an unsupported content type).
`object` stands for a body that binds: each field is either present with a
value of the right type or absent (an empty body is
`object none none none`). -/
inductive Body where
  | malformed
  | object (id : Option Int) (name : Option String) (email : Option String)
  deriving DecidableEq, Repr

/-- The part of `echo.Context` the handlers read: the path parameters by name
and the request body. -/
structure Context where
  pathParams : List (String × String)
  body : Body
  deriving Repr

/-- Method `c.Param(name)`: the value of the first path parameter called
`name`, the empty string when there is none. -/
def Context.Param (c : Context) (name : String) : String :=
  match c.pathParams.find? (fun p => p.1 == name) with
  | some p => p.2
  | none => ""

/-- Method `c.Bind(u)`: decoding the body into the struct `u` points to.  Fields
present in the body overwrite those of `u`, absent fields keep the value `u`
had; an error leaves no result. -/
def Context.Bind (c : Context) (u : MyUser) : Option MyUser :=
  match c.body with
  | Body.malformed => none
  | Body.object id name email =>
    some { ID := id.getD u.ID, Name := name.getD u.Name, Email := email.getD u.Email }

/-- A request to `/users/{id}` whose only path parameter is `id`. -/
def Context.withId (id : String) (body : Body) : Context :=
  { pathParams := [("id", id)], body := body }

/-! Section: `strconv.Atoi` -/

/-- Value of an ASCII decimal digit, nothing for any other character. -/
def digitVal (ch : Char) : Option Nat :=
  if 48 ≤ ch.toNat ∧ ch.toNat ≤ 57 then some (ch.toNat - 48) else none

/-- The digit loop of `strconv`: `n = n*10 + d` for each digit, a parse error
on the first character that is not a decimal digit. -/
def parseDigits : List Char → Nat → Option Nat
  | [], n => some n
  | ch :: rest, n =>
    match digitVal ch with
    | none => none
    | some d => parseDigits rest (n * 10 + d)

/-- Unsigned part of the parse: at least one digit is required. -/
def parseUnsigned (cs : List Char) : Option Nat :=
  match cs with
  | [] => none
  | _ :: _ => parseDigits cs 0

/-- Sign handling and range check of `strconv.Atoi` for a 64-bit `int`: an
optional leading `+` or `-`, then the digits; a magnitude outside
`[-2^63, 2^63 - 1]` is a range error. -/
def atoiChars (cs : List Char) : Option Int :=
  match cs with
  | [] => none
  | ch :: rest =>
    if ch = '-' then
      match parseUnsigned rest with
      | none => none
      | some n => if n ≤ 2 ^ 63 then some (-(n : Int)) else none
    else if ch = '+' then
      match parseUnsigned rest with
      | none => none
      | some n => if n < 2 ^ 63 then some (n : Int) else none
    else
      match parseUnsigned (ch :: rest) with
      | none => none
      | some n => if n < 2 ^ 63 then some (n : Int) else none

/-- Function `strconv.Atoi(s)`: the integer `s` denotes in base 10, or nothing
when Go returns a non-nil error. -/
def Atoi (s : String) : Option Int :=
  atoiChars s.toList

/-! Section: Handlers -/

/-- The slice literal built by `GetUsers`. -/
def sampleUsers : List MyUser :=
  [ { ID := 1, Name := "John Doe", Email := "john@example.com" },
    { ID := 2, Name := "Anne Jacqueline Hathaway", Email := "Anne@example.com" },
    { ID := 3, Name := "Robert John Downey Jr.", Email := "Robert@example.com" } ]

/-- Handler `GetUsers`: the hardcoded list with status 200. -/
def GetUsers (_c : Context) : Response :=
  let users := sampleUsers
  { status := StatusOK, body := Payload.users users }

/-- Handler `GetUser`. -/
def GetUser (c : Context) : Response :=
  match Atoi (c.Param "id") with
  | none => { status := StatusBadRequest, body := Payload.text "Invalid ID format" }
  | some id =>
    if id ≠ 1 then
      { status := StatusNotFound, body := Payload.text "User not found" }
    else
      let user : MyUser := { ID := 1, Name := "John Doe", Email := "john@example.com" }
      { status := StatusOK, body := Payload.user user }

/-- Handler `CreateUser`. -/
def CreateUser (c : Context) : Response :=
  match c.Bind MyUser.zero with
  | none => { status := StatusBadRequest, body := Payload.text "Invalid Request" }
  | some u =>
    let u := { u with ID := 100 }
    { status := StatusCreated, body := Payload.user u }

/-- Handler `UpdateUser`. -/
def UpdateUser (c : Context) : Response :=
  match Atoi (c.Param "id") with
  | none => { status := StatusBadRequest, body := Payload.text "Invalid ID format" }
  | some id =>
    match c.Bind MyUser.zero with
    | none => { status := StatusBadRequest, body := Payload.text "Invalid request" }
    | some u =>
      let u := { u with ID := id }
      { status := StatusOK, body := Payload.user u }

/-- Handler `PatchUser`. -/
def PatchUser (c : Context) : Response :=
  match Atoi (c.Param "id") with
  | none => { status := StatusBadRequest, body := Payload.text "Invalid ID format" }
  | some id =>
    match c.Bind MyUser.zero with
    | none => { status := StatusBadRequest, body := Payload.text "Invalid request" }
    | some u =>
      let u := { u with ID := id }
      { status := StatusOK, body := Payload.user u }

/-- Handler `DeleteUser`. -/
def DeleteUser (c : Context) : Response :=
  match Atoi (c.Param "id") with
  | none => { status := StatusBadRequest, body := Payload.text "Invalid ID format" }
  | some id =>
    let user : MyUser := { ID := 1, Name := "John Doe", Email := "john@example.com" }
    if id ≠ user.ID then
      { status := StatusNotFound, body := Payload.text "User not found" }
    else
      { status := StatusOK, body := Payload.text "User deletion successful" }

/-- The user of the `GetUsers` list carrying a given id, if any. -/
def lookupUser (id : Int) : Option MyUser :=
  sampleUsers.find? (fun u => u.ID == id)

/-! Section: Lemmas on `Atoi` -/

theorem digitVal_digitChar (k : Nat) (hk : k < 10) : digitVal (Nat.digitChar k) = some k := by
  interval_cases k <;> decide

theorem digitChar_ne_sign (k : Nat) (hk : k < 10) :
    Nat.digitChar k ≠ '-' ∧ Nat.digitChar k ≠ '+' := by
  interval_cases k <;> decide

/-- Reading back the digits `Nat.toDigitsCore` puts in front of `ds` leaves the
accumulator at `n` for the rest. -/
theorem parseDigits_toDigitsCore (fuel : Nat) :
    ∀ (n : Nat) (ds : List Char), n < fuel →
      parseDigits (Nat.toDigitsCore 10 fuel n ds) 0 = parseDigits ds n := by
  induction fuel with
  | zero => intro n ds h; omega
  | succ fuel ih =>
    intro n ds h
    have hmod : n % 10 < 10 := Nat.mod_lt _ (by decide)
    simp only [Nat.toDigitsCore]
    split
    next h0 =>
      have hn : n % 10 = n := by omega
      simp only [parseDigits, digitVal_digitChar _ hmod]
      rw [hn, Nat.zero_mul, Nat.zero_add]
    next h0 =>
      have hlt : n / 10 < fuel := by omega
      rw [ih (n / 10) _ hlt]
      simp only [parseDigits, digitVal_digitChar _ hmod]
      congr 1
      omega

/-- The output of `Nat.toDigitsCore` starts with a decimal digit. -/
theorem toDigitsCore_head (fuel : Nat) :
    ∀ (n : Nat) (ds : List Char), n < fuel →
      ∃ k rest, k < 10 ∧ Nat.toDigitsCore 10 fuel n ds = Nat.digitChar k :: rest := by
  induction fuel with
  | zero => intro n ds h; omega
  | succ fuel ih =>
    intro n ds h
    have hmod : n % 10 < 10 := Nat.mod_lt _ (by decide)
    simp only [Nat.toDigitsCore]
    split
    next h0 => exact ⟨n % 10, ds, hmod, rfl⟩
    next h0 => exact ih (n / 10) _ (by omega)

/-- The decimal digits of a natural number parse back to it. -/
theorem parseUnsigned_toDigits (n : Nat) : parseUnsigned (Nat.toDigits 10 n) = some n := by
  obtain ⟨k, rest, _, hk⟩ := toDigitsCore_head (n + 1) n [] (Nat.lt_succ_self n)
  have hp := parseDigits_toDigitsCore (n + 1) n [] (Nat.lt_succ_self n)
  unfold Nat.toDigits
  rw [hk] at hp ⊢
  simpa [parseUnsigned, parseDigits] using hp

/-- Round trip through decimal form: every 64-bit integer, printed in base
10, is read back by `Atoi`. -/
theorem Atoi_toString (n : Int) (hlo : -(2 ^ 63) ≤ n) (hhi : n < 2 ^ 63) :
    Atoi (toString n) = some n := by
  cases n with
  | ofNat m =>
    obtain ⟨k, rest, hk10, hk⟩ := toDigitsCore_head (m + 1) m [] (Nat.lt_succ_self m)
    have hp := parseUnsigned_toDigits m
    have hs : (toString (Int.ofNat m)).toList = Nat.toDigits 10 m := rfl
    have hm : m < 2 ^ 63 := by
      have : (m : Int) < 2 ^ 63 := hhi
      exact_mod_cast this
    unfold Atoi
    rw [hs]
    unfold Nat.toDigits at hp ⊢
    rw [hk] at hp ⊢
    obtain ⟨h1, h2⟩ := digitChar_ne_sign k hk10
    norm_num at hm
    simp [atoiChars, h1, h2, hp, hm]
  | negSucc m =>
    have hp := parseUnsigned_toDigits (m + 1)
    have hs : (toString (Int.negSucc m)).toList = '-' :: Nat.toDigits 10 (m + 1) := rfl
    have hm : m + 1 ≤ 2 ^ 63 := by
      have : -(2 ^ 63 : Int) ≤ Int.negSucc m := hlo
      rw [Int.negSucc_eq] at this
      omega
    unfold Atoi
    rw [hs]
    norm_num at hm
    simp [atoiChars, hp, Int.negSucc_eq]
    omega

/-! Section: The request/response contract -/

/-- Claim C1, as the spec states it, fails at id 2: the id is in the `GetUsers`
list, yet `GetUser` answers 404 instead of 200 with that user. -/
theorem GetUser_sample_id_two_not_found :
    lookupUser 2 = some { ID := 2, Name := "Anne Jacqueline Hathaway", Email := "Anne@example.com" } ∧
    GetUser (Context.withId "2" (Body.object none none none)) =
      { status := 404, body := Payload.text "User not found" } ∧
    (GetUser (Context.withId "2" (Body.object none none none))).status ≠ 200 := by
  decide

/-- Claim C1, amended: for an id of the sample set given as the path parameter,
`GetUser` answers 200 with the user of the `GetUsers` list carrying that id when
the id is 1, and 404 "User not found" when the id is 2 or 3. -/
theorem GetUser_sample_ids (c : Context) (id : Int)
    (hmem : id ∈ sampleUsers.map MyUser.ID) (hid : Atoi (c.Param "id") = some id) :
    (id = 1 → ∃ u, lookupUser id = some u ∧
        GetUser c = { status := 200, body := Payload.user u }) ∧
    (id = 2 ∨ id = 3 → GetUser c = { status := 404, body := Payload.text "User not found" }) ∧
    (id = 1 ∨ id = 2 ∨ id = 3) := by
  have h123 : id = 1 ∨ id = 2 ∨ id = 3 := by
    simpa [sampleUsers] using hmem
  refine ⟨?_, ?_, h123⟩
  · intro h1
    subst h1
    exact ⟨{ ID := 1, Name := "John Doe", Email := "john@example.com" }, by decide,
      by simp [GetUser, hid, StatusOK]⟩
  · intro h23
    have hne : id ≠ 1 := by omega
    simp [GetUser, hid, hne, StatusNotFound]

theorem GetUser_sample_ids_witness :
    (3 : Int) ∈ sampleUsers.map MyUser.ID ∧
    Atoi ((Context.withId "3" Body.malformed).Param "id") = some 3 ∧
    GetUser (Context.withId "3" Body.malformed) =
      { status := 404, body := Payload.text "User not found" } :=
  ⟨by decide, by decide,
    (GetUser_sample_ids (Context.withId "3" Body.malformed) 3 (by decide) (by decide)).2.1
      (Or.inr rfl)⟩

/-- Claim C2: when the `id` path parameter does not parse as an integer, each of
`GetUser`, `DeleteUser`, `UpdateUser` and `PatchUser` answers 400 "Invalid ID
format", whatever the request body is (the id is checked before the body is
bound), and the status is below 500. -/
theorem invalid_id_bad_request (c : Context) (hid : Atoi (c.Param "id") = none) :
    GetUser c = { status := 400, body := Payload.text "Invalid ID format" } ∧
    DeleteUser c = { status := 400, body := Payload.text "Invalid ID format" } ∧
    UpdateUser c = { status := 400, body := Payload.text "Invalid ID format" } ∧
    PatchUser c = { status := 400, body := Payload.text "Invalid ID format" } ∧
    (GetUser c).status < 500 ∧ (DeleteUser c).status < 500 ∧
    (UpdateUser c).status < 500 ∧ (PatchUser c).status < 500 := by
  simp [GetUser, DeleteUser, UpdateUser, PatchUser, hid, StatusBadRequest]

theorem invalid_id_bad_request_witness :
    Atoi ((Context.withId "abc" Body.malformed).Param "id") = none ∧
    UpdateUser (Context.withId "abc" Body.malformed) =
      { status := 400, body := Payload.text "Invalid ID format" } ∧
    PatchUser (Context.withId "abc" Body.malformed) =
      { status := 400, body := Payload.text "Invalid ID format" } :=
  ⟨by decide,
    (invalid_id_bad_request (Context.withId "abc" Body.malformed) (by decide)).2.2.1,
    (invalid_id_bad_request (Context.withId "abc" Body.malformed) (by decide)).2.2.2.1⟩

/-- Claim C3: for every integer id of Go type `int` (64 bits) that is not an id
of the sample set, written in decimal as the `id` path parameter, `GetUser` and
`DeleteUser` both answer 404 "User not found". -/
theorem not_in_sample_not_found (c : Context) (n : Int)
    (hlo : -(2 ^ 63) ≤ n) (hhi : n < 2 ^ 63)
    (hn : n ∉ sampleUsers.map MyUser.ID) (hc : c.Param "id" = toString n) :
    GetUser c = { status := 404, body := Payload.text "User not found" } ∧
    DeleteUser c = { status := 404, body := Payload.text "User not found" } := by
  have hid : Atoi (c.Param "id") = some n := by
    rw [hc]
    exact Atoi_toString n hlo hhi
  have hne : n ≠ 1 := by
    intro h
    apply hn
    subst h
    decide
  simp [GetUser, DeleteUser, hid, hne, StatusNotFound]

theorem not_in_sample_not_found_witness :
    GetUser (Context.withId "99" Body.malformed) =
      { status := 404, body := Payload.text "User not found" } ∧
    DeleteUser (Context.withId "99" Body.malformed) =
      { status := 404, body := Payload.text "User not found" } :=
  not_in_sample_not_found (Context.withId "99" Body.malformed) 99
    (by decide) (by decide) (by decide) (by decide)

/-- Claim C4, as the spec states it, fails for a body that already carries the
id 100: the body binds, and the created user has the very id the body
supplied. -/
theorem CreateUser_id_same_as_input :
    (Context.mk [] (Body.object (some 100) (some "Ann") (some "ann@example.com"))).Bind MyUser.zero =
      some { ID := 100, Name := "Ann", Email := "ann@example.com" } ∧
    CreateUser (Context.mk [] (Body.object (some 100) (some "Ann") (some "ann@example.com"))) =
      { status := 201,
        body := Payload.user { ID := 100, Name := "Ann", Email := "ann@example.com" } } := by
  decide

/-- Claim C4, amended: for every request body that binds to a User, `CreateUser`
returns a User whose id is the constant 100 whatever id the body supplied, so it
differs from the supplied id exactly when that id is not 100. -/
theorem CreateUser_id_constant (c : Context) (u : MyUser)
    (hb : c.Bind MyUser.zero = some u) :
    ∃ v, CreateUser c = { status := 201, body := Payload.user v } ∧
      v.ID = 100 ∧ (v.ID ≠ u.ID ↔ u.ID ≠ 100) := by
  refine ⟨{ u with ID := 100 }, ?_, rfl, ?_⟩
  · simp [CreateUser, hb, StatusCreated]
  · constructor
    · intro h e
      exact h e.symm
    · intro h e
      exact h e.symm

theorem CreateUser_id_constant_witness :
    ∃ v, CreateUser (Context.mk [] (Body.object (some 7) (some "Ann") none)) =
        { status := 201, body := Payload.user v } ∧
      v.ID = 100 ∧ (v.ID ≠ (7 : Int) ↔ (7 : Int) ≠ 100) :=
  CreateUser_id_constant (Context.mk [] (Body.object (some 7) (some "Ann") none))
    { ID := 7, Name := "Ann", Email := "" } (by decide)

/-- Claim C5: when the path id parses as the integer `n` and the body binds to
the User `u`, `UpdateUser` answers 200 with a User whose id is `n` (whatever id
the body carried) and whose name and email are those of `u`. -/
theorem UpdateUser_path_id (c : Context) (n : Int) (u : MyUser)
    (hid : Atoi (c.Param "id") = some n) (hb : c.Bind MyUser.zero = some u) :
    UpdateUser c =
      { status := 200, body := Payload.user { ID := n, Name := u.Name, Email := u.Email } } := by
  simp [UpdateUser, hid, hb, StatusOK]

theorem UpdateUser_path_id_witness :
    UpdateUser (Context.withId "42" (Body.object (some 5) (some "Ann") (some "ann@example.com"))) =
      { status := 200,
        body := Payload.user { ID := 42, Name := "Ann", Email := "ann@example.com" } } :=
  UpdateUser_path_id
    (Context.withId "42" (Body.object (some 5) (some "Ann") (some "ann@example.com"))) 42
    { ID := 5, Name := "Ann", Email := "ann@example.com" } (by decide) (by decide)

/-- Claim C6: when the path id parses as the integer `n`, `DeleteUser` answers
200 with the text "User deletion successful" exactly when `n = 1`, and 404
otherwise. -/
theorem DeleteUser_only_one (c : Context) (n : Int)
    (hid : Atoi (c.Param "id") = some n) :
    (DeleteUser c = { status := 200, body := Payload.text "User deletion successful" } ↔ n = 1) ∧
    ((DeleteUser c).status = 200 ↔ n = 1) ∧
    (n ≠ 1 → DeleteUser c = { status := 404, body := Payload.text "User not found" }) := by
  by_cases h : n = 1
  · simp [DeleteUser, hid, h, StatusOK]
  · simp [DeleteUser, hid, h, StatusOK, StatusNotFound]

theorem DeleteUser_only_one_witness :
    DeleteUser (Context.withId "1" Body.malformed) =
      { status := 200, body := Payload.text "User deletion successful" } ∧
    DeleteUser (Context.withId "2" Body.malformed) =
      { status := 404, body := Payload.text "User not found" } :=
  ⟨(DeleteUser_only_one (Context.withId "1" Body.malformed) 1 (by decide)).1.mpr rfl,
    (DeleteUser_only_one (Context.withId "2" Body.malformed) 2 (by decide)).2.2 (by decide)⟩

/-- Claim C7: `GetUser` called with the path id "1" answers 200 with the User
`{id: 1, name: "John Doe", email: "john@example.com"}`. -/
theorem GetUser_one (c : Context) (hc : c.Param "id" = "1") :
    GetUser c =
      { status := 200,
        body := Payload.user { ID := 1, Name := "John Doe", Email := "john@example.com" } } := by
  have hid : Atoi (c.Param "id") = some 1 := by
    rw [hc]
    decide
  simp [GetUser, hid, StatusOK]

theorem GetUser_one_witness :
    GetUser (Context.withId "1" (Body.object none none none)) =
      { status := 200,
        body := Payload.user { ID := 1, Name := "John Doe", Email := "john@example.com" } } :=
  GetUser_one (Context.withId "1" (Body.object none none none)) (by decide)

/-- Claim C8: for every request body, `CreateUser` answers 201 with a User
carrying the bound name and email and the assigned id when the body binds to a
User, and 400 "Invalid Request" when it does not; the status is one of these
two. -/
theorem CreateUser_created_or_bad_request (c : Context) :
    (∀ u, c.Bind MyUser.zero = some u →
      CreateUser c =
        { status := 201, body := Payload.user { ID := 100, Name := u.Name, Email := u.Email } }) ∧
    (c.Bind MyUser.zero = none →
      CreateUser c = { status := 400, body := Payload.text "Invalid Request" }) ∧
    ((CreateUser c).status = 201 ∨ (CreateUser c).status = 400) := by
  refine ⟨?_, ?_, ?_⟩
  · intro u hb
    simp [CreateUser, hb, StatusCreated]
  · intro hb
    simp [CreateUser, hb, StatusBadRequest]
  · cases hb : c.Bind MyUser.zero with
    | none => right; simp [CreateUser, hb, StatusBadRequest]
    | some u => left; simp [CreateUser, hb, StatusCreated]

theorem CreateUser_created_or_bad_request_witness :
    CreateUser (Context.mk [] (Body.object none (some "Ann") (some "ann@example.com"))) =
      { status := 201,
        body := Payload.user { ID := 100, Name := "Ann", Email := "ann@example.com" } } ∧
    CreateUser (Context.mk [] Body.malformed) =
      { status := 400, body := Payload.text "Invalid Request" } :=
  ⟨(CreateUser_created_or_bad_request
      (Context.mk [] (Body.object none (some "Ann") (some "ann@example.com")))).1
      { ID := 0, Name := "Ann", Email := "ann@example.com" } (by decide),
    (CreateUser_created_or_bad_request (Context.mk [] Body.malformed)).2.1 (by decide)⟩

/-- Claim C9: for every request, `GetUsers` answers 200 with the same sequence of
three users, and the ids of that sequence are pairwise distinct: two users of
the sequence with the same id are the same user. -/
theorem GetUsers_fixed_distinct (c : Context) :
    ∃ us, GetUsers c = { status := 200, body := Payload.users us } ∧
      us = [ { ID := 1, Name := "John Doe", Email := "john@example.com" },
             { ID := 2, Name := "Anne Jacqueline Hathaway", Email := "Anne@example.com" },
             { ID := 3, Name := "Robert John Downey Jr.", Email := "Robert@example.com" } ] ∧
      us.length = 3 ∧
      (us.map MyUser.ID).Nodup ∧
      us.Pairwise (fun u v => u.ID ≠ v.ID) := by
  refine ⟨sampleUsers, rfl, rfl, rfl, ?_, ?_⟩
  · decide
  · decide

/-- Claim C10: `PatchUser` and `UpdateUser` are the same function of the request.
The answer is built from the path id and the body alone, nothing is merged from
an existing user: when the id parses as `n` and the body binds, the User
returned carries `n` and, for each of name and email, the body value or the zero
value (the empty string) when the body leaves it out. -/
theorem PatchUser_eq_UpdateUser (c : Context) :
    PatchUser c = UpdateUser c ∧
    ∀ (n : Int) (id : Option Int) (name email : Option String),
      Atoi (c.Param "id") = some n → c.body = Body.object id name email →
      PatchUser c =
        { status := 200,
          body := Payload.user { ID := n, Name := name.getD "", Email := email.getD "" } } := by
  refine ⟨rfl, ?_⟩
  intro n id name email hid hbody
  simp [PatchUser, hid, Context.Bind, hbody, MyUser.zero, StatusOK]

theorem PatchUser_eq_UpdateUser_witness :
    PatchUser (Context.withId "1" (Body.object none (some "Johnny") none)) =
      { status := 200, body := Payload.user { ID := 1, Name := "Johnny", Email := "" } } :=
  (PatchUser_eq_UpdateUser (Context.withId "1" (Body.object none (some "Johnny") none))).2
    1 none (some "Johnny") none (by decide) rfl

end Controller
